import Mathlib

/-!
Shallow embedding of `src/Ripal_tests/extraction/batch_refiner.py` (the
"Batch Item Processor" of the spec): data model (`ProcessingResult`,
`ModelConfig`), backend rotation (`get_next_model`), work-item enumeration
(`get_files_to_process`), per-item processing (`process_single_file`),
the dispatch loop (`run_batch_processing`), report generation
(`generate_report`), client setup (`setup_clients`), and the
bounded-concurrency gate (`asyncio.Semaphore`) as a transition system.

External effects (file reads, LLM API calls, file writes, wall-clock time,
timestamps) are supplied by an `Oracle`; Python string operations used by
the script (`split`, `rsplit`, `join`, `replace`, `startswith`, `endswith`,
`os.path.splitext`) are modelled as executable functions on `List Char`.
-/

namespace BatchRefiner

/-! ## Python string primitives -/

/-- Model of Python `s.split(sep)` for a single-character separator
(the script only splits on `'_'`). Matches Python: `"".split('_') = ['']`,
`"_".split('_') = ['', '']`. -/
def splitOnChar (sep : Char) : List Char → List (List Char)
  | [] => [[]]
  | c :: rest =>
    let r := splitOnChar sep rest
    if c = sep then [] :: r
    else
      match r with
      | [] => [[c]]
      | h :: t => (c :: h) :: t

/-- Model of Python `sep.join(parts)` for a single-character separator. -/
def joinWithChar (sep : Char) : List (List Char) → List Char
  | [] => []
  | [x] => x
  | x :: xs => x ++ sep :: joinWithChar sep xs

/-- Fuel-driven scanner behind `replaceAll`; structural recursion on the
fuel keeps it kernel-computable. Each step consumes at least one input
character, so fuel equal to the input length never runs out. -/
def replaceAllFuel (pat rep : List Char) : Nat → List Char → List Char
  | 0, l => l
  | _ + 1, [] => []
  | fuel + 1, c :: rest =>
    if pat.isPrefixOf (c :: rest) then
      rep ++ replaceAllFuel pat rep fuel (rest.drop (pat.length - 1))
    else
      c :: replaceAllFuel pat rep fuel rest

/-- Model of Python `s.replace(old, new)`: replace every non-overlapping
occurrence of `pat`, scanning left to right. -/
def replaceAll (pat rep s : List Char) : List Char :=
  replaceAllFuel pat rep s.length s

/-- Model of Python `s.startswith(p)`. -/
def pyStartsWith (s p : String) : Bool := p.toList.isPrefixOf s.toList

/-- Model of Python `s.endswith(p)`. -/
def pyEndsWith (s p : String) : Bool := p.toList.isSuffixOf s.toList

/-- Model of Python `s.split('_')` on strings. -/
def pySplitUnderscore (s : String) : List String :=
  (splitOnChar '_' s.toList).map String.mk

/-- Model of Python `'_'.join(parts)` on strings. -/
def pyJoinUnderscore (parts : List String) : String :=
  String.mk (joinWithChar '_' (parts.map String.toList))

/-- Model of Python `s.replace(old, new)` on strings. -/
def pyReplace (s old new : String) : String :=
  String.mk (replaceAll old.toList new.toList s.toList)

/-- Model of Python `s.rsplit('_', 1)[0]`: the part before the last `'_'`,
or the whole string when it contains no `'_'`. -/
def pyRsplitHead (s : String) : String :=
  let parts := pySplitUnderscore s
  if parts.length ≤ 1 then s else pyJoinUnderscore parts.dropLast

/-- Model of Python `os.path.splitext(p)[0]` for a bare filename (no
directory separators): cut at the last `'.'` unless every character before
it is a `'.'` (so `".txt"` keeps its name, `"page.txt"` becomes `"page"`). -/
def splitextRoot (p : String) : String :=
  let cs := p.toList
  match cs.reverse.findIdx? (· = '.') with
  | none => p
  | some ri =>
    let dotIndex := cs.length - 1 - ri
    if (cs.take dotIndex).all (· = '.') then p
    else String.mk (cs.take dotIndex)

/-! ## Data model (`ProcessingResult`, `ModelConfig`, lines 45-60) -/

/-- Embeds the `ProcessingResult` dataclass (batch_refiner.py lines 45-53).
`processing_time` (a Python float of wall-clock seconds) is modelled as a
rational supplied by the oracle. -/
structure ProcessingResult where
  filename : String
  model_used : String
  success : Bool
  output_file : Option String := none
  error : Option String := none
  processing_time : ℚ := 0
  content_length : Nat := 0
  deriving DecidableEq, Inhabited

/-- Embeds the `ModelConfig` dataclass (lines 55-60). -/
structure ModelConfig where
  name : String
  short_name : String
  provider : String
  rate_limit_delay : ℚ := 10
  deriving DecidableEq, Inhabited

/-- The static `all_models` list from `AdvancedDocumentRefiner.__init__`
(lines 72-78). -/
def all_models : List ModelConfig :=
  [⟨"gemini-2.5-pro", "gemini_25_pro", "gemini", 8⟩,
   ⟨"deepseek/deepseek-r1-0528-qwen3-8b:free", "deepseek_qwen3_8b", "openrouter", 8⟩,
   ⟨"deepseek/deepseek-r1-0528:free", "deepseek_r1", "openrouter", 8⟩,
   ⟨"meta-llama/llama-3.1-405b-instruct:free", "llama_405b", "openrouter", 8⟩,
   ⟨"mistralai/mistral-small-3.1-24b-instruct:free", "mistral_small", "openrouter", 8⟩]

/-- The `self.max_parallel = 5` configuration (line 91). -/
def max_parallel : Nat := 5

/-! ## Backend rotation (`get_next_model`, lines 153-157) -/

/-- Embeds `get_next_model`: return `self.models[self.current_model_index]`
and advance the index by one modulo `len(self.models)`. Python list
indexing raises `IndexError` out of range; every reachable index stays in
range (the index starts at 0 and is always reduced modulo the length), so
the total `getD` models it faithfully on the reachable states. -/
def get_next_model (models : List ModelConfig) (idx : Nat) : ModelConfig × Nat :=
  (models.getD idx default, (idx + 1) % models.length)

/-- Rotation index before the Nth call (counting from zero), starting from
the initial `self.current_model_index = 0` (line 99). -/
def nthCallState (models : List ModelConfig) : Nat → Nat
  | 0 => 0
  | n + 1 => (get_next_model models (nthCallState models n)).2

/-- The backend returned by the Nth call (counting from zero) to
`get_next_model`, starting from index 0. -/
def nthCallResult (models : List ModelConfig) (n : Nat) : ModelConfig :=
  (get_next_model models (nthCallState models n)).1

/-! ## Work-item enumeration (`get_files_to_process`, lines 164-188) -/

/-- Embeds the skip-filter's decomposition of one output-directory entry
(lines 177-183): for a name starting with `'refined_'`, split on `'_'`;
with at least 3 parts, join the parts from index 2 on, strip `'.txt'`,
drop the segment after the last `'_'` (meant to remove the timestamp) and
append `'.txt'`. Returns `none` when the name is not treated as a
processed-file marker. -/
def extract_original (f : String) : Option String :=
  if pyStartsWith f "refined_" then
    let parts := pySplitUnderscore f
    if 3 ≤ parts.length then
      let original := pyReplace (pyJoinUnderscore (parts.drop 2)) ".txt" ""
      some (pyRsplitHead original ++ ".txt")
    else none
  else none

/-- The `processed_files` set collected from the output-directory listing
(lines 174-183), as a list of extracted names. -/
def processed_files (outputListing : List String) : List String :=
  outputListing.filterMap extract_original

/-- Embeds `get_files_to_process` (lines 164-188) over directory listings:
keep input entries ending in `'.txt'` that do not start with `'refined_'`,
then drop those whose name occurs in the `processed_files` set. -/
def get_files_to_process (inputListing outputListing : List String) : List String :=
  let all_files := inputListing.filter
    (fun f => pyEndsWith f ".txt" && !pyStartsWith f "refined_")
  all_files.filter (fun f => !(processed_files outputListing).contains f)

/-! ## Per-item processing (`process_single_file`, lines 288-342) -/

/-- Observable suspension-point events of one `process_single_file` call,
in program order: semaphore entry (`async with self.semaphore`), the input
file read, the backend API call, the output write (carrying the output
name and the written content), the rate-limiting sleep (carrying the
delay), and the semaphore release at function exit. -/
inductive Event where
  | acquire : Event
  | read : Event
  | apiCall : Event
  | write : String → String → Event
  | sleep : ℚ → Event
  | release : Event
  deriving DecidableEq

/-- External effects of one item, supplied as data: the timestamp string
`datetime.now().strftime('%Y%m%d_%H%M%S')`, the measured elapsed time, the
outcome of reading the input file, of each provider's API call, and of the
output write. A `.error e` models the corresponding Python exception with
message `e`. -/
structure Oracle where
  timestamp : String
  elapsed : ℚ
  readRes : Except String String
  geminiRes : String → Except String String
  openrouterRes : String → Except String String
  writeRes : String → String → Except String Unit

/-- Embeds `process_with_gemini` (lines 243-261): any exception is
re-raised as `Exception(f"Gemini processing error: {str(e)}")`. -/
def process_with_gemini (o : Oracle) (content : String) : Except String String :=
  match o.geminiRes content with
  | .ok t => .ok t
  | .error e => .error ("Gemini processing error: " ++ e)

/-- Embeds `process_with_openrouter` (lines 263-286): any exception is
re-raised as `Exception(f"OpenRouter processing error: {str(e)}")`. -/
def process_with_openrouter (o : Oracle) (content : String) : Except String String :=
  match o.openrouterRes content with
  | .ok t => .ok t
  | .error e => .error ("OpenRouter processing error: " ++ e)

/-- The provider dispatch inside `process_single_file` (lines 302-305):
`if model_config.provider == "gemini": ... else: ...`. -/
def dispatch_call (mc : ModelConfig) (o : Oracle) (content : String) :
    Except String String :=
  if mc.provider = "gemini" then process_with_gemini o content
  else process_with_openrouter o content

/-- The output naming convention of `process_single_file` (lines 307-310):
`f"refined_{model_config.short_name}_{base_name}_{timestamp}.txt"` with
`base_name = os.path.splitext(filename)[0]`. -/
def output_filename (mc : ModelConfig) (filename timestamp : String) : String :=
  "refined_" ++ mc.short_name ++ "_" ++ splitextRoot filename ++ "_" ++ timestamp ++ ".txt"

/-- Embeds `process_single_file` (lines 288-342). Under the semaphore it
first calls `get_next_model` (outside the `try`), then inside the `try`
reads the input, dispatches the provider call, writes the output, sleeps
the backend's rate-limit delay, and returns a success result; any failure
among those steps is caught by the `except` and turned into a failure
result with the exception's message. Returns the result, the advanced
rotation index, and the trace of suspension-point events (each operation
is traced when attempted; the trace ends with the semaphore release
performed by `async with` on either exit path). The Python locals
`model_config` and `output_filename` are inlined as the pure expressions
`(get_next_model models idx).1` and `output_filename ...`. -/
def process_single_file (models : List ModelConfig) (idx : Nat)
    (filename : String) (o : Oracle) :
    (ProcessingResult × Nat) × List Event :=
  match o.readRes with
  | .error e =>
    ((⟨filename, (get_next_model models idx).1.short_name, false, none, some e,
       o.elapsed, 0⟩, (get_next_model models idx).2),
     [.acquire, .read, .release])
  | .ok content =>
    match dispatch_call (get_next_model models idx).1 o content with
    | .error e =>
      ((⟨filename, (get_next_model models idx).1.short_name, false, none, some e,
         o.elapsed, 0⟩, (get_next_model models idx).2),
       [.acquire, .read, .apiCall, .release])
    | .ok refined_content =>
      match o.writeRes (output_filename (get_next_model models idx).1 filename o.timestamp)
          refined_content with
      | .error e =>
        ((⟨filename, (get_next_model models idx).1.short_name, false, none, some e,
           o.elapsed, 0⟩, (get_next_model models idx).2),
         [.acquire, .read, .apiCall,
          .write (output_filename (get_next_model models idx).1 filename o.timestamp)
            refined_content, .release])
      | .ok _ =>
        ((⟨filename, (get_next_model models idx).1.short_name, true,
           some (output_filename (get_next_model models idx).1 filename o.timestamp), none,
           o.elapsed, refined_content.length⟩, (get_next_model models idx).2),
         [.acquire, .read, .apiCall,
          .write (output_filename (get_next_model models idx).1 filename o.timestamp)
            refined_content,
          .sleep (get_next_model models idx).1.rate_limit_delay, .release])

/-! ## Dispatch loop (`run_batch_processing`, lines 425-483) -/

/-- The run-scoped mutable state of the spec's RunState: the backend list,
`self.current_model_index`, and the accumulated `self.results`
(lines 97-99). -/
structure RunState where
  models : List ModelConfig
  current_model_index : Nat
  results : List ProcessingResult

/-- One iteration of the `as_completed` collection loop (lines 464-466):
await one task's `process_single_file` result and append it to
`self.results`. Each awaited task performed exactly one `get_next_model`,
advancing the rotation index. -/
def run_step (s : RunState) (item : String × Oracle) : RunState :=
  let out := process_single_file s.models s.current_model_index item.1 item.2
  { s with current_model_index := out.1.2, results := s.results ++ [out.1.1] }

/-- Embeds the collection phase of `run_batch_processing` (lines 456-466):
one task per filename is submitted and `asyncio.as_completed` yields every
task exactly once, appending exactly one `ProcessingResult` per task. The
fold order models the arrival order; which item arrives at which position
does not affect the claims proved below (result count, per-item totality). -/
def run_batch_processing (s : RunState) (items : List (String × Oracle)) : RunState :=
  items.foldl run_step s

/-! ## Client setup (`setup_clients`, lines 102-131, and `__init__`) -/

/-- The mode filter of `__init__` (lines 81-86). -/
def filter_by_mode (mode : String) (ms : List ModelConfig) : List ModelConfig :=
  if mode = "gemini" then ms.filter (fun m => m.provider == "gemini")
  else if mode = "openrouter" then ms.filter (fun m => m.provider == "openrouter")
  else ms

/-- The availability filter of `setup_clients` (lines 122-127):
`if model.provider == "gemini" and HAS_GEMINI: ... elif model.provider ==
"openrouter" and HAS_OPENAI: ...`. -/
def available_filter (hasGemini hasOpenai : Bool) (m : ModelConfig) : Bool :=
  if m.provider = "gemini" then hasGemini
  else if m.provider = "openrouter" then hasOpenai
  else false

/-- Embeds the tail of `setup_clients` (lines 121-131): filter the models
by client availability and raise
`RuntimeError("No AI models available - install required dependencies")`
when none remain. -/
def setup_clients (hasGemini hasOpenai : Bool) (ms : List ModelConfig) :
    Except String (List ModelConfig) :=
  let available_models := ms.filter (available_filter hasGemini hasOpenai)
  if available_models.isEmpty then
    .error "No AI models available - install required dependencies"
  else .ok available_models

/-- Embeds the model-list part of `AdvancedDocumentRefiner.__init__`
(lines 63-100): build `all_models`, apply the mode filter, then
`setup_clients`. -/
def mk_refiner (mode : String) (hasGemini hasOpenai : Bool) :
    Except String (List ModelConfig) :=
  setup_clients hasGemini hasOpenai (filter_by_mode mode all_models)

/-- The construction-then-run sequencing of `main` (lines 514-536):
`AdvancedDocumentRefiner(mode=mode)` runs (and can raise) before
`run_batch_processing` calls `get_files_to_process`; a constructor error
aborts before any work item is enumerated. Returns the enumerated
work-item list on success. -/
def run_program (mode : String) (hasGemini hasOpenai : Bool)
    (inputListing outputListing : List String) : Except String (List String) :=
  match mk_refiner mode hasGemini hasOpenai with
  | .error e => .error e
  | .ok _ => .ok (get_files_to_process inputListing outputListing)

/-! ## Report generation (`generate_report`, lines 344-407) -/

/-- Python float division `a / b`: raises `ZeroDivisionError` when
`b == 0`. -/
def pydiv (a b : ℚ) : Option ℚ :=
  if b = 0 then none else some (a / b)

/-- Per-backend breakdown entry of the report (lines 356-366 and 385-387):
backend short identifier, total, successful, failed, and the per-model
success rate (guarded by `if stats['total'] > 0 else 0`). -/
structure ModelStat where
  model : String
  total : Nat
  successful : Nat
  failed : Nat
  success_rate : ℚ
  deriving DecidableEq

/-- The numeric content of the report produced by `generate_report`. -/
structure ReportData where
  total_files : Nat
  successful_count : Nat
  failed_count : Nat
  success_rate : ℚ
  total_time : ℚ
  avg_time : ℚ
  total_content : Nat
  model_stats : List ModelStat
  deriving DecidableEq

/-- The `model_stats` accumulation of `generate_report` (lines 356-366),
one entry per distinct `model_used` in first-appearance order, and the
per-model rate lines (lines 385-387) with their explicit zero guard. -/
def model_stats (results : List ProcessingResult) : List ModelStat :=
  ((results.map (fun r => r.model_used)).dedup).map (fun m =>
    let rs := results.filter (fun r => r.model_used == m)
    let succ := (rs.filter (fun r => r.success)).length
    let tot := rs.length
    ⟨m, tot, succ, (rs.filter (fun r => !r.success)).length,
     if 0 < tot then (succ : ℚ) / (tot : ℚ) * 100 else 0⟩)

/-- Embeds the computation of `generate_report` (lines 344-383).
`avg_time` is guarded by the conditional expression
`total_time / len(self.results) if self.results else 0` (line 353), but
the success-rate f-string `len(successful)/len(self.results)*100`
(line 374) divides unconditionally; `none` models the
`ZeroDivisionError` escaping the function. -/
def generate_report (results : List ProcessingResult) : Option ReportData :=
  let successful := results.filter (fun r => r.success)
  let failed := results.filter (fun r => !r.success)
  let total_time := (results.map (fun r => r.processing_time)).sum
  let avg_time := if results.isEmpty then 0 else total_time / (results.length : ℚ)
  let total_content := (successful.map (fun r => r.content_length)).sum
  match pydiv (successful.length : ℚ) (results.length : ℚ) with
  | none => none
  | some q =>
    some ⟨results.length, successful.length, failed.length, q * 100,
          total_time, avg_time, total_content, model_stats results⟩

/-! ## Concurrency gate (`asyncio.Semaphore(self.max_parallel)`, line 100,
and `async with self.semaphore`, line 290) -/

/-- State of the permit pool: available permits and tasks currently inside
the per-item critical section. -/
structure GateState where
  permits : Nat
  inflight : Nat
  deriving DecidableEq

/-- The initial gate: `asyncio.Semaphore(max_parallel)` with no task in
flight. -/
def initGate (maxp : Nat) : GateState := ⟨maxp, 0⟩

/-- Semaphore transitions: a task may enter the critical section only by
consuming an available permit (`async with self.semaphore` suspends when
none is available), and leaving the section returns its permit. -/
inductive GateStep : GateState → GateState → Prop
  | acquire (p i : Nat) : GateStep ⟨p + 1, i⟩ ⟨p, i + 1⟩
  | release (p i : Nat) : GateStep ⟨p, i + 1⟩ ⟨p + 1, i⟩

/-- States reachable from the initial gate through semaphore steps. -/
inductive GateReach (maxp : Nat) : GateState → Prop
  | init : GateReach maxp (initGate maxp)
  | step {s t : GateState} : GateReach maxp s → GateStep s t → GateReach maxp t

/-! ## Sample oracles for concrete evaluation -/

/-- An oracle on which every external step succeeds. -/
def okOracle : Oracle :=
  ⟨"20260101_120000", 1, .ok "raw content",
   fun _ => .ok "refined content", fun _ => .ok "refined content",
   fun _ _ => .ok ()⟩

/-- An oracle whose input-file read raises an exception. -/
def failOracle : Oracle :=
  ⟨"20260101_120000", 1, .error "boom",
   fun _ => .ok "refined content", fun _ => .ok "refined content",
   fun _ _ => .ok ()⟩

/-! ## Helper lemmas -/

/-- The rotation index before the Nth call is `N mod len(models)`. -/
lemma nthCallState_mod (models : List ModelConfig) (n : Nat) :
    nthCallState models n = n % models.length := by
  induction n with
  | zero => simp [nthCallState]
  | succ n ih => simp [nthCallState, get_next_model, ih, Nat.mod_add_mod]

/-- Each dispatched item appends exactly one result to the run state. -/
lemma run_batch_results_length :
    ∀ (items : List (String × Oracle)) (s : RunState),
      (run_batch_processing s items).results.length =
        s.results.length + items.length
  | [], s => by simp [run_batch_processing]
  | i :: t, s => by
    have h := run_batch_results_length t (run_step s i)
    simp only [run_batch_processing, List.foldl_cons] at h ⊢
    rw [h]
    simp [run_step]
    omega

/-- The result returned for an item always carries that item's filename. -/
lemma process_single_file_filename (models : List ModelConfig) (idx : Nat)
    (filename : String) (o : Oracle) :
    ((process_single_file models idx filename o).1.1).filename = filename := by
  unfold process_single_file
  split
  · rfl
  · split
    · rfl
    · split <;> rfl

/-- The runner records results for every submitted item, in order of
arrival, regardless of per-item failures. -/
lemma run_batch_results_filenames :
    ∀ (items : List (String × Oracle)) (s : RunState),
      (run_batch_processing s items).results.map (fun r => r.filename) =
        s.results.map (fun r => r.filename) ++ items.map (fun p => p.1)
  | [], s => by simp [run_batch_processing]
  | i :: t, s => by
    have h := run_batch_results_filenames t (run_step s i)
    simp only [run_batch_processing, List.foldl_cons] at h ⊢
    rw [h]
    simp [run_step, process_single_file_filename]

/-- Permit-count invariant of the semaphore: available permits plus
in-flight tasks always equal the pool size. -/
lemma gate_invariant {m : Nat} {s : GateState} (h : GateReach m s) :
    s.permits + s.inflight = m := by
  induction h with
  | init => simp [initGate]
  | step _ hstep ih =>
    cases hstep with
    | acquire p i => simp at ih ⊢; omega
    | release p i => simp at ih ⊢; omega

/-! ## Claims -/

/-- C1: for every run over a work-item list, at run end the collection of
`ProcessingResult`s has exactly one result per submitted work item:
`len(results) == len(work_items)`, whether items succeed or fail. -/
theorem run_results_one_per_item (models : List ModelConfig)
    (items : List (String × Oracle)) :
    (run_batch_processing ⟨models, 0, []⟩ items).results.length =
      items.length := by
  rw [run_batch_results_length]
  simp

/-- C2: for every non-empty backend list, the Nth call (counting from
zero) to `get_next_model` returns the backend at position
`N mod len(backends)`, and the rotation index advances by one modulo the
list length on every call, wrapping to zero. -/
theorem rotation_nth_call (models : List ModelConfig) (n : Nat)
    (h : models ≠ []) :
    nthCallResult models n =
      models.get ⟨n % models.length, Nat.mod_lt n (List.length_pos.mpr h)⟩ ∧
    nthCallState models (n + 1) =
      (nthCallState models n + 1) % models.length := by
  constructor
  · show (get_next_model models (nthCallState models n)).1 = _
    rw [nthCallState_mod]
    simp only [get_next_model]
    rw [List.getD_eq_getElem _ _ (Nat.mod_lt n (List.length_pos.mpr h))]
    simp [List.get_eq_getElem]
  · simp [nthCallState, get_next_model]

/-- C2 witness: with the script's five-model list, call number 7 returns
the backend at index `7 % 5 = 2` (`deepseek_r1`). -/
theorem rotation_nth_call_witness :
    all_models ≠ [] ∧
    nthCallResult all_models 7 =
      all_models.get ⟨7 % all_models.length,
        Nat.mod_lt 7 (List.length_pos.mpr (by decide))⟩ :=
  ⟨by decide, (rotation_nth_call all_models 7 (by decide)).1⟩

/-- C3 (code bug): the skip filter does not invert the output naming
convention. A successful run-1 processing of `page.txt` by the
`deepseek_r1` backend writes `refined_deepseek_r1_page_20260101_120000.txt`,
but `get_files_to_process`'s decomposition of that name recovers
`r1_page_20260101.txt` (the backend short names contain underscores and
the timestamp is two underscore-separated fields), so run 2 re-selects
`page.txt` instead of excluding it. -/
theorem skip_filter_roundtrip_bug :
    (process_single_file all_models 2 "page.txt" okOracle).1.1.success = true ∧
    (process_single_file all_models 2 "page.txt" okOracle).1.1.output_file =
      some "refined_deepseek_r1_page_20260101_120000.txt" ∧
    extract_original "refined_deepseek_r1_page_20260101_120000.txt" =
      some "r1_page_20260101.txt" ∧
    get_files_to_process ["page.txt"]
        ["refined_deepseek_r1_page_20260101_120000.txt"] = ["page.txt"] := by
  refine ⟨rfl, rfl, ?_, ?_⟩ <;> decide

/-- C4 (code bug): on an empty `ProcessingResult` collection,
`generate_report` does not produce a report: the success-rate expression
`len(successful)/len(self.results)*100` divides by zero (only `avg_time`
is guarded), so the function raises `ZeroDivisionError` instead of
reporting `success_rate = 0`. -/
theorem generate_report_empty_raises : generate_report [] = none := by
  decide

/-- C5: every state reachable from the initial semaphore through
acquire/release steps has at most the pool size many tasks inside the
per-item critical section. -/
theorem gate_bounded_inflight (m : Nat) (s : GateState)
    (h : GateReach m s) : s.inflight ≤ m := by
  have := gate_invariant h
  omega

/-- C5 witness: with the script's `max_parallel = 5`, the state reached
after one acquisition has one in-flight task, and the bound applies. -/
theorem gate_bounded_inflight_witness :
    GateReach max_parallel ⟨4, 1⟩ ∧
    (GateState.mk 4 1).inflight ≤ max_parallel :=
  have hr : GateReach max_parallel ⟨4, 1⟩ :=
    GateReach.step GateReach.init (GateStep.acquire 4 0)
  ⟨hr, gate_bounded_inflight max_parallel ⟨4, 1⟩ hr⟩

/-- C8: when the availability filter leaves no backend, construction
raises `RuntimeError("No AI models available - install required
dependencies")` and the run aborts before any work item is enumerated. -/
theorem no_models_aborts_run (mode : String) (hasGemini hasOpenai : Bool)
    (inputListing outputListing : List String)
    (h : (filter_by_mode mode all_models).filter
           (available_filter hasGemini hasOpenai) = []) :
    run_program mode hasGemini hasOpenai inputListing outputListing =
      .error "No AI models available - install required dependencies" := by
  simp [run_program, mk_refiner, setup_clients, h]

/-- C8 witness: in `--geminionly` mode with the Gemini dependency missing,
no backend survives the filters and the run aborts with the
`RuntimeError` before enumerating the one input file. -/
theorem no_models_aborts_run_witness :
    (filter_by_mode "gemini" all_models).filter
      (available_filter false true) = [] ∧
    run_program "gemini" false true ["page.txt"] [] =
      .error "No AI models available - install required dependencies" :=
  ⟨by decide, no_models_aborts_run "gemini" false true ["page.txt"] [] (by decide)⟩

/-- C6: any exception raised while reading the item's source content,
invoking the backend call, or writing the output is caught at the item
boundary and produces a `ProcessingResult` with `success = false` and the
error's description; the failure never aborts the batch — the runner still
records one result per submitted item, in order, whatever the oracles do. -/
theorem item_failure_absorbed (models : List ModelConfig) (idx : Nat)
    (filename : String) (o : Oracle) :
    (∀ e, o.readRes = .error e →
      (process_single_file models idx filename o).1.1.success = false ∧
      (process_single_file models idx filename o).1.1.error = some e) ∧
    (∀ content e, o.readRes = .ok content →
      dispatch_call (get_next_model models idx).1 o content = .error e →
      (process_single_file models idx filename o).1.1.success = false ∧
      (process_single_file models idx filename o).1.1.error = some e) ∧
    (∀ content refined e, o.readRes = .ok content →
      dispatch_call (get_next_model models idx).1 o content = .ok refined →
      o.writeRes (output_filename (get_next_model models idx).1 filename o.timestamp)
        refined = .error e →
      (process_single_file models idx filename o).1.1.success = false ∧
      (process_single_file models idx filename o).1.1.error = some e) ∧
    (∀ (items : List (String × Oracle)) (s : RunState),
      (run_batch_processing s items).results.map (fun r => r.filename) =
        s.results.map (fun r => r.filename) ++ items.map (fun p => p.1)) := by
  refine ⟨?_, ?_, ?_, run_batch_results_filenames⟩
  · intro e h
    simp [process_single_file, h]
  · intro content e hr hc
    simp [process_single_file, hr, hc]
  · intro content refined e hr hc hw
    simp [process_single_file, hr, hc, hw]

/-- C6 witness: a read failure with message `boom` yields a failed result
carrying that message. -/
theorem item_failure_absorbed_witness :
    failOracle.readRes = .error "boom" ∧
    ((process_single_file all_models 0 "a.txt" failOracle).1.1.success = false ∧
     (process_single_file all_models 0 "a.txt" failOracle).1.1.error = some "boom") :=
  ⟨rfl, (item_failure_absorbed all_models 0 "a.txt" failOracle).1 "boom" rfl⟩

/-- C7: the rate-limiting sleep happens only on the success path — after
the output write and before the semaphore release, with the backend's
configured delay — and is skipped on every failure; on both outcomes the
trace ends with the permit release (and begins with its acquisition). -/
theorem sleep_only_on_success (models : List ModelConfig) (idx : Nat)
    (filename : String) (o : Oracle) :
    ((process_single_file models idx filename o).1.1.success = true →
      ∃ refined,
        (process_single_file models idx filename o).2 =
          [.acquire, .read, .apiCall,
           .write (output_filename (get_next_model models idx).1 filename o.timestamp)
             refined,
           .sleep (get_next_model models idx).1.rate_limit_delay, .release]) ∧
    ((process_single_file models idx filename o).1.1.success = false →
      ∀ d, Event.sleep d ∉ (process_single_file models idx filename o).2) ∧
    (process_single_file models idx filename o).2.getLast? = some Event.release ∧
    (process_single_file models idx filename o).2.head? = some Event.acquire := by
  obtain ⟨ts, el, rr, gr, orr, wr⟩ := o
  cases rr with
  | error e => simp [process_single_file]
  | ok content =>
    cases hd : dispatch_call (get_next_model models idx).1
        ⟨ts, el, .ok content, gr, orr, wr⟩ content with
    | error e => simp [process_single_file, hd]
    | ok refined =>
      cases hw : wr (output_filename (get_next_model models idx).1 filename ts)
          refined with
      | error e => simp [process_single_file, hd, hw]
      | ok u =>
        refine ⟨fun _ => ⟨refined, ?_⟩, fun hfalse => ?_, ?_, ?_⟩
        · simp [process_single_file, hd, hw]
        · simp [process_single_file, hd, hw] at hfalse
        · simp [process_single_file, hd, hw]
        · simp [process_single_file, hd, hw]

/-- C7 witness: on an all-success oracle the trace is exactly acquire,
read, API call, write, the backend's sleep, release. -/
theorem sleep_only_on_success_witness :
    (process_single_file all_models 0 "a.txt" okOracle).1.1.success = true ∧
    ∃ refined,
      (process_single_file all_models 0 "a.txt" okOracle).2 =
        [.acquire, .read, .apiCall,
         .write (output_filename (get_next_model all_models 0).1 "a.txt"
           okOracle.timestamp) refined,
         .sleep (get_next_model all_models 0).1.rate_limit_delay, .release] :=
  ⟨rfl, (sleep_only_on_success all_models 0 "a.txt" okOracle).1 rfl⟩

/-- C9: a successfully processed input yields the output file named by
concatenating the `refined_` marker, the assigned backend's short
identifier, the input's base name and the timestamp with the `.txt`
extension; and work-item enumeration only admits names ending in `.txt`
that do not start with the reserved `refined_` marker. -/
theorem output_naming_and_admission :
    (∀ (models : List ModelConfig) (idx : Nat) (filename : String) (o : Oracle)
        (content refined : String),
      o.readRes = .ok content →
      dispatch_call (get_next_model models idx).1 o content = .ok refined →
      o.writeRes (output_filename (get_next_model models idx).1 filename o.timestamp)
        refined = .ok () →
      (process_single_file models idx filename o).1.1.output_file =
        some ("refined_" ++ (get_next_model models idx).1.short_name ++ "_" ++
          splitextRoot filename ++ "_" ++ o.timestamp ++ ".txt")) ∧
    (∀ (f : String) (inputListing outputListing : List String),
      f ∈ get_files_to_process inputListing outputListing →
      pyEndsWith f ".txt" = true ∧ pyStartsWith f "refined_" = false) := by
  constructor
  · intro models idx filename o content refined hr hc hw
    simp only [output_filename] at hw
    simp [process_single_file, hr, hc, hw, output_filename]
  · intro f ins outs hf
    simp only [get_files_to_process, List.mem_filter, Bool.and_eq_true,
      Bool.not_eq_true'] at hf
    exact ⟨hf.1.2.1, hf.1.2.2⟩

/-- C9 witness: `page.txt` processed by the first backend at the sample
timestamp gets the concatenated name, and `page.txt` itself is admitted by
enumeration over a fresh output directory. -/
theorem output_naming_and_admission_witness :
    okOracle.readRes = .ok "raw content" ∧
    (process_single_file all_models 0 "page.txt" okOracle).1.1.output_file =
      some ("refined_" ++ (get_next_model all_models 0).1.short_name ++ "_" ++
        splitextRoot "page.txt" ++ "_" ++ okOracle.timestamp ++ ".txt") ∧
    "page.txt" ∈ get_files_to_process ["page.txt"] [] ∧
    pyEndsWith "page.txt" ".txt" = true ∧
    pyStartsWith "page.txt" "refined_" = false :=
  have hmem : "page.txt" ∈ get_files_to_process ["page.txt"] [] := by decide
  ⟨rfl,
   output_naming_and_admission.1 all_models 0 "page.txt" okOracle
     "raw content" "refined content" rfl rfl rfl,
   hmem,
   output_naming_and_admission.2 "page.txt" ["page.txt"] [] hmem⟩

/-- C10: every `ProcessingResult` returned by `process_single_file` is
field-coherent: on success the output file is set, the recorded content
length equals the length of the written content, and the error is `None`;
on failure the error is set, the output file is `None`, and the content
length is 0. -/
theorem result_field_coherence (models : List ModelConfig) (idx : Nat)
    (filename : String) (o : Oracle) :
    ((process_single_file models idx filename o).1.1.success = true →
      (process_single_file models idx filename o).1.1.error = none ∧
      ∃ name c,
        (process_single_file models idx filename o).1.1.output_file = some name ∧
        Event.write name c ∈ (process_single_file models idx filename o).2 ∧
        (process_single_file models idx filename o).1.1.content_length = c.length) ∧
    ((process_single_file models idx filename o).1.1.success = false →
      (process_single_file models idx filename o).1.1.error.isSome = true ∧
      (process_single_file models idx filename o).1.1.output_file = none ∧
      (process_single_file models idx filename o).1.1.content_length = 0) := by
  obtain ⟨ts, el, rr, gr, orr, wr⟩ := o
  cases rr with
  | error e => simp [process_single_file]
  | ok content =>
    cases hd : dispatch_call (get_next_model models idx).1
        ⟨ts, el, .ok content, gr, orr, wr⟩ content with
    | error e => simp [process_single_file, hd]
    | ok refined =>
      cases hw : wr (output_filename (get_next_model models idx).1 filename ts)
          refined with
      | error e => simp [process_single_file, hd, hw]
      | ok u =>
        refine ⟨fun _ => ⟨?_,
          output_filename (get_next_model models idx).1 filename ts, refined,
          ?_, ?_, ?_⟩, fun hfalse => ?_⟩
        · simp [process_single_file, hd, hw]
        · simp [process_single_file, hd, hw]
        · simp [process_single_file, hd, hw]
        · simp [process_single_file, hd, hw]
        · simp [process_single_file, hd, hw] at hfalse

/-- C10 witness: on an all-success oracle the coherent success shape is
realized at a concrete input. -/
theorem result_field_coherence_witness :
    (process_single_file all_models 0 "a.txt" okOracle).1.1.success = true ∧
    ((process_single_file all_models 0 "a.txt" okOracle).1.1.error = none ∧
     ∃ name c,
       (process_single_file all_models 0 "a.txt" okOracle).1.1.output_file = some name ∧
       Event.write name c ∈ (process_single_file all_models 0 "a.txt" okOracle).2 ∧
       (process_single_file all_models 0 "a.txt" okOracle).1.1.content_length =
         c.length) :=
  ⟨rfl, (result_field_coherence all_models 0 "a.txt" okOracle).1 rfl⟩

end BatchRefiner
